import Mathlib

/-!
Shallow embedding of `challenge-2/devui_launcher.py` (Azure Trust Agents,
Challenge 2 DevUI launcher) and proofs of its specified properties.

The launcher's observable behaviour is modelled as pure functions producing
an event trace (printed lines, environment check, graph build, serve call)
and a process exit code.  External collaborators (the vendor `serve`
function, the workflow-module imports, and the blocking server loop) can
raise exceptions; their outcomes are injected through a `World` record so
that every control path of the script is a function of the injected
outcomes, the process environment and the command line.
-/

namespace DevUI

/-- A process environment, as an association list from variable names to
string values; `Env.get` mirrors `os.environ.get` (first match wins). -/
abbrev Env := List (String × String)

def Env.get : Env → String → Option String
  | [], _ => none
  | (k, v) :: rest, key => if k = key then some v else Env.get rest key

/-- Python truthiness of the value of `os.environ.get(var)`:
`None` (unset) and the empty string are falsy, all other strings truthy.
The source guards with `if not os.environ.get(var)`. -/
def pyTruthy : Option String → Bool
  | none => false
  | some s => s != ""

/-- The `required_vars` list of `check_environment`. -/
def required_vars : List String :=
  ["AI_FOUNDRY_PROJECT_ENDPOINT",
   "MODEL_DEPLOYMENT_NAME",
   "COSMOS_ENDPOINT",
   "COSMOS_KEY",
   "MCP_SERVER_ENDPOINT",
   "APIM_SUBSCRIPTION_KEY",
   "FRAUD_ALERT_AGENT_ID"]

/-- The accumulation loop of `check_environment`: iterate over
`required_vars`, appending each variable whose value is falsy to
`missing_vars`. -/
def missingVarsLoop (env : Env) : List String :=
  required_vars.foldl
    (fun acc v => if pyTruthy (env.get v) then acc else acc ++ [v]) []

/-- `check_environment`: returns `(result, reported)` where `result` is the
boolean the Python function returns and `reported` is the list of missing
variables it prints (empty on success, where only the ✅ line is printed). -/
def check_environment (env : Env) : Bool × List String :=
  let missing := missingVarsLoop env
  if missing.isEmpty then (true, []) else (false, missing)

/-- A workflow graph handle, as returned by the vendor builder.
Modelled from the spec: the vendor `WorkflowBuilder`/workflow API is an
opaque collaborator; the spec describes it as accepting a name, a
description, a start-node designation and directed edges, returning an
executable graph handle. -/
structure Workflow where
  name : String
  description : String
  start : Option String
  edges : List (String × String)
deriving DecidableEq, Repr

/-- Modelled from the spec: the vendor `WorkflowBuilder` accumulator
(name, description, start designation, edge list), missing from `src/`. -/
structure WorkflowBuilder where
  name : String
  description : String
  start : Option String
  edges : List (String × String)
deriving DecidableEq, Repr

def WorkflowBuilder.set_start_executor (b : WorkflowBuilder) (e : String) :
    WorkflowBuilder :=
  { b with start := some e }

def WorkflowBuilder.add_edge (b : WorkflowBuilder) (src dst : String) :
    WorkflowBuilder :=
  { b with edges := b.edges ++ [(src, dst)] }

def WorkflowBuilder.build (b : WorkflowBuilder) : Workflow :=
  ⟨b.name, b.description, b.start, b.edges⟩

/-- The executor handles imported from `sequential_workflow_chal2`,
identified by their node names. -/
def customer_data_executor : String := "customer_data"

def risk_analyzer_executor : String := "risk_analyzer"

def compliance_report_executor : String := "compliance_report"

def fraud_alert_executor : String := "fraud_alert"

/-- The workflow built by `launch_workflow_devui`, mirroring the chained
builder calls in the source. -/
def challenge2Workflow : Workflow :=
  ((((WorkflowBuilder.mk
        "Challenge 2: Fraud Detection Workflow with MCP"
        "4-executor workflow: Customer Data → Risk Analyzer → (Compliance Report + Fraud Alert in parallel)"
        none
        []).set_start_executor
        customer_data_executor).add_edge
        customer_data_executor risk_analyzer_executor).add_edge
        risk_analyzer_executor compliance_report_executor).add_edge
        risk_analyzer_executor fraud_alert_executor
    |>.build

/-- Out-degree of a node in a workflow graph. -/
def outDegree (g : Workflow) (v : String) : Nat :=
  (g.edges.filter (fun e => e.1 == v)).length

/-- Python exception classes relevant to the launcher.  `ImportError` and
generic exceptions are `Exception` subclasses; `KeyboardInterrupt` and
`SystemExit` derive only from `BaseException`, so `except Exception`
clauses do not catch them. -/
inductive Exc where
  | importError (msg : String)
  | keyboardInterrupt
  | systemExit (code : Int)
  | otherException (msg : String)
deriving DecidableEq, Repr

/-- Observable events of a launcher run. -/
inductive Event where
  | print (line : String)
  | envCheck
  | importServe
  | chdir
  | importWorkflow
  | buildGraph
  | serve (entities : List Workflow) (port : Int) (auto_open : Bool)
deriving DecidableEq, Repr

/-- Outcomes of the external calls the launcher makes: the
`from agent_framework.devui import serve` statement, the workflow-module
imports inside the `try` block, and the blocking `serve(...)` call.
`none` means the call completes normally. -/
structure World where
  serveImportExc : Option Exc
  workflowImportExc : Option Exc
  serveExc : Option Exc
deriving DecidableEq, Repr

/-- The banner prints of `launch_workflow_devui` between graph build and
the `serve` call. -/
def launchPrints (port : Int) : List Event :=
  [.print ("🚀 Launching Challenge 2 DevUI on port " ++ toString port),
   .print "🔄 Workflow: 4-Agent Fraud Detection with MCP Integration",
   .print "   Architecture: Customer Data → Risk Analyzer → [Compliance Report + Fraud Alert]",
   .print ("🌐 Access at: http://localhost:" ++ toString port),
   .print "\n💡 Features:",
   .print "   • Real-time Cosmos DB integration",
   .print "   • Azure AI Foundry agents",
   .print "   • MCP Server integration for fraud alerts",
   .print "   • Parallel executor processing",
   .print "   • Complete audit trail generation"]

/-- The two `except` clauses of `launch_workflow_devui`: `ImportError` and
`Exception` each print a diagnostic and call `sys.exit(1)` (raising
`SystemExit 1`); `KeyboardInterrupt` and `SystemExit` are not `Exception`
subclasses and propagate unchanged. -/
def launchHandle (evs : List Event) (e : Exc) : List Event × Option Exc :=
  match e with
  | .importError msg =>
      (evs ++
        [Event.print ("❌ Error importing workflow: " ++ msg),
         Event.print "\nMake sure you're in the correct directory and all dependencies are installed."],
       some (Exc.systemExit 1))
  | .otherException msg =>
      (evs ++ [Event.print ("❌ Error launching DevUI: " ++ msg)],
       some (Exc.systemExit 1))
  | e => (evs, some e)

/-- The events of a full, exception-free pass through the `try` block of
`launch_workflow_devui`. -/
def launchBody (port : Int) : List Event :=
  [Event.importServe, Event.chdir, Event.importWorkflow, Event.buildGraph] ++
  launchPrints port ++
  [Event.serve [challenge2Workflow] port true]

/-- `launch_workflow_devui(port)`: import `serve` (outside the `try`
block), then inside the `try` block change directory, import the workflow
executors, build the graph, print the banner and call `serve`.  Returns
the emitted events and the exception escaping the function, if any. -/
def launch_workflow_devui (w : World) (port : Int) :
    List Event × Option Exc :=
  match w.serveImportExc with
  | some e => ([Event.importServe], some e)
  | none =>
    match w.workflowImportExc with
    | some e =>
        launchHandle [Event.importServe, Event.chdir, Event.importWorkflow] e
    | none =>
      match w.serveExc with
      | some e => launchHandle (launchBody port) e
      | none => (launchBody port, none)

/-- The parsed command line, with `argparse` defaults. -/
structure Args where
  port : Int := 8083
  no_env_check : Bool := false
deriving DecidableEq, Repr

/-- Value of a decimal digit character, `none` for non-digits. -/
def digitVal (c : Char) : Option Nat :=
  if 48 ≤ c.toNat ∧ c.toNat ≤ 57 then some (c.toNat - 48) else none

/-- Left-to-right accumulation of decimal digits. -/
def digitsToNat : List Char → Nat → Option Nat
  | [], acc => some acc
  | c :: rest, acc =>
    match digitVal c with
    | some d => digitsToNat rest (acc * 10 + d)
    | none => none

/-- The Python `int(...)` conversion `argparse` applies to the `--port`
value: an optional minus sign followed by decimal digits; anything else
raises `ValueError`, which `argparse` turns into a usage error. -/
def pyInt (s : String) : Option Int :=
  match s.toList with
  | [] => none
  | ['-'] => none
  | '-' :: cs => (digitsToNat cs 0).map (fun n => -(n : Int))
  | cs => (digitsToNat cs 0).map (fun n => (n : Int))

/-- The `argparse` configuration of `main`, applied to the argument
vector: `--port <int>` (default 8083, last occurrence wins) and
`--no-env-check` (store true).  Any other token, or a missing or
non-integer `--port` value, is a usage error (`none`). -/
def parseArgsLoop : List String → Args → Option Args
  | [], acc => some acc
  | t :: rest, acc =>
    if t = "--no-env-check" then
      parseArgsLoop rest { acc with no_env_check := true }
    else if t = "--port" then
      match rest with
      | [] => none
      | v :: rest2 =>
        match pyInt v with
        | some n => parseArgsLoop rest2 { acc with port := n }
        | none => none
    else none

def parse_args (argv : List String) : Option Args :=
  parseArgsLoop argv {}

/-- The printed output of `check_environment`: the ❌ header, one line per
missing variable and a closing hint on failure; the ✅ line on success. -/
def check_environment_events (env : Env) : List Event :=
  let missing := (check_environment env).2
  if missing.isEmpty then
    [Event.print "✅ All required environment variables are set"]
  else
    [Event.print "❌ Missing required environment variables:"] ++
    missing.map (fun v => Event.print ("   - " ++ v)) ++
    [Event.print "\nPlease set these variables in your .env file."]

/-- The banner `main` prints before the environment check. -/
def bannerEvents : List Event :=
  [Event.print (String.mk (List.replicate 70 '=')),
   Event.print "🏦 Azure Trust Agents - Challenge 2: MCP Integration DevUI",
   Event.print (String.mk (List.replicate 70 '='))]

/-- The `try` statement of `main` around `launch_workflow_devui`:
`KeyboardInterrupt` prints the stop notice and falls through (process
exit 0); `except Exception` prints the diagnostic and calls
`sys.exit(1)`; an uncaught `SystemExit c` terminates the process with
code `c`; normal return exits 0. -/
def mainLaunch (w : World) (a : Args) (pre : List Event) :
    List Event × Int :=
  match launch_workflow_devui w a.port with
  | (evs, none) => (pre ++ evs, 0)
  | (evs, some Exc.keyboardInterrupt) =>
      (pre ++ evs ++ [Event.print "\n👋 DevUI stopped by user"], 0)
  | (evs, some (Exc.importError msg)) =>
      (pre ++ evs ++ [Event.print ("❌ Error launching DevUI: " ++ msg)], 1)
  | (evs, some (Exc.otherException msg)) =>
      (pre ++ evs ++ [Event.print ("❌ Error launching DevUI: " ++ msg)], 1)
  | (evs, some (Exc.systemExit c)) => (pre ++ evs, c)

/-- The body of `main` after argument parsing: banner, environment gate
(short-circuited when `--no-env-check` is set), then the launch attempt.
A failed environment check calls `sys.exit(1)`. -/
def mainWithArgs (w : World) (env : Env) (a : Args) : List Event × Int :=
  if a.no_env_check then
    mainLaunch w a bannerEvents
  else
    let pre := bannerEvents ++ [Event.envCheck] ++ check_environment_events env
    if (check_environment env).1 then
      mainLaunch w a pre
    else
      (pre, 1)

/-- `main()`: parse the command line (an `argparse` usage error exits with
code 2), then run the gated launch.  Returns the event trace and the
process exit code. -/
def mainRun (w : World) (env : Env) (argv : List String) :
    List Event × Int :=
  match parse_args argv with
  | none => ([], 2)
  | some a => mainWithArgs w env a

/-- The module-level `load_dotenv(override=True)` call.
Modelled from the spec and the python-dotenv contract: with
`override=True`, every variable defined in the `.env` file replaces any
value already present in the process environment; variables not in the
file keep their process values.  Prepending the file bindings to the
association list gives them precedence under first-match lookup. -/
def load_dotenv_override (file procEnv : Env) : Env :=
  file ++ procEnv

/-- The whole script run: `load_dotenv(override=True)` at import time,
then `main()` on the overridden environment. -/
def run_script (w : World) (file procEnv : Env) (argv : List String) :
    List Event × Int :=
  mainRun w (load_dotenv_override file procEnv) argv

/-- Startup phases appearing in a trace: the environment check, the graph
build and the serve call, in the order traversed. -/
def phaseOf : Event → Option Nat
  | Event.envCheck => some 0
  | Event.buildGraph => some 1
  | Event.serve _ _ _ => some 2
  | _ => none

def phases (t : List Event) : List Nat :=
  t.filterMap phaseOf

/-- A concrete environment assigning every required variable a non-empty
value, used to instantiate the general theorems. -/
def envAll : Env := required_vars.map (fun v => (v, "set"))

/-! ## Basic lemmas about the environment check -/

theorem foldl_append_filter (p : String → Bool) :
    ∀ (l acc : List String),
      l.foldl (fun acc v => if p v then acc else acc ++ [v]) acc =
        acc ++ l.filter (fun v => !p v) := by
  intro l
  induction l with
  | nil => intro acc; simp
  | cons x xs ih =>
      intro acc
      by_cases hx : p x
      · simp [List.foldl_cons, hx, ih]
      · simp [List.foldl_cons, hx, ih]

theorem missingVarsLoop_eq_filter (env : Env) :
    missingVarsLoop env =
      required_vars.filter (fun v => !pyTruthy (env.get v)) := by
  unfold missingVarsLoop
  simpa using foldl_append_filter (fun v => pyTruthy (env.get v)) required_vars []

theorem check_environment_eq (env : Env) :
    check_environment env =
      ((missingVarsLoop env).isEmpty, missingVarsLoop env) := by
  unfold check_environment
  cases h : (missingVarsLoop env).isEmpty
  · simp [h]
  · simp [h, List.isEmpty_iff.mp h]

theorem pyTruthy_iff (o : Option String) :
    pyTruthy o = true ↔ ∃ s, o = some s ∧ s ≠ "" := by
  cases o with
  | none => simp [pyTruthy]
  | some s => simp [pyTruthy]

/-- C1: `check_environment` returns success if and only if all seven
required keys are set to non-empty values, and the set of keys it reports
as missing is exactly the set of required keys whose value is unset or
empty — every missing key is enumerated, never a superset or subset. -/
theorem check_environment_exact (env : Env) :
    required_vars.length = 7 ∧
    ((check_environment env).1 = true ↔
      ∀ v ∈ required_vars, ∃ s, env.get v = some s ∧ s ≠ "") ∧
    (∀ v, v ∈ (check_environment env).2 ↔
      v ∈ required_vars ∧ ¬∃ s, env.get v = some s ∧ s ≠ "") := by
  refine ⟨rfl, ?_, ?_⟩
  · rw [check_environment_eq, missingVarsLoop_eq_filter]
    simp only [List.isEmpty_iff, List.filter_eq_nil_iff, Bool.not_eq_true',
      Bool.not_eq_false]
    constructor
    · intro h v hv
      exact (pyTruthy_iff (env.get v)).mp (by simpa using h v hv)
    · intro h v hv
      simpa using (pyTruthy_iff (env.get v)).mpr (h v hv)
  · intro v
    rw [check_environment_eq, missingVarsLoop_eq_filter]
    simp only [List.mem_filter, Bool.not_eq_true']
    constructor
    · rintro ⟨hv, hf⟩
      refine ⟨hv, fun hex => ?_⟩
      rw [(pyTruthy_iff (env.get v)).mpr hex] at hf
      exact absurd hf (by simp)
    · rintro ⟨hv, hne⟩
      refine ⟨hv, ?_⟩
      cases hp : pyTruthy (env.get v)
      · rfl
      · exact absurd ((pyTruthy_iff (env.get v)).mp hp) hne

/-- Closed instance of `check_environment_exact`: with every required
variable set to a non-empty value the check succeeds, and with the empty
environment every one of the seven keys is reported missing. -/
theorem check_environment_exact_witness :
    (check_environment envAll).1 = true ∧
    "COSMOS_KEY" ∈ (check_environment ([] : Env)).2 :=
  ⟨((check_environment_exact envAll).2.1).mpr (by decide),
   ((check_environment_exact ([] : Env)).2.2 "COSMOS_KEY").mpr (by decide)⟩

/-- C2: the workflow graph built by the launcher has exactly one start
node `customer_data`, exactly the three directed edges
`customer_data → risk_analyzer`, `risk_analyzer → compliance_report` and
`risk_analyzer → fraud_alert`, and `risk_analyzer` has out-degree 2. -/
theorem workflow_topology :
    challenge2Workflow.start = some "customer_data" ∧
    challenge2Workflow.edges =
      [("customer_data", "risk_analyzer"),
       ("risk_analyzer", "compliance_report"),
       ("risk_analyzer", "fraud_alert")] ∧
    challenge2Workflow.edges.length = 3 ∧
    outDegree challenge2Workflow "risk_analyzer" = 2 :=
  ⟨rfl, rfl, rfl, by decide⟩

/-- C6: a required key bound to the empty string is treated exactly like
an unset key — adding the binding `k=""` to an environment in which `k` is
unset leaves the validator's result unchanged, and in both environments
`k` is reported missing. -/
theorem empty_string_like_unset (env : Env) (k : String)
    (hk : k ∈ required_vars) (h : env.get k = none) :
    check_environment ((k, "") :: env) = check_environment env ∧
    k ∈ (check_environment env).2 ∧
    k ∈ (check_environment ((k, "") :: env)).2 := by
  have hget : ∀ v, pyTruthy (Env.get ((k, "") :: env) v) =
      pyTruthy (env.get v) := by
    intro v
    by_cases hkv : k = v
    · subst hkv
      simp [Env.get, h, pyTruthy]
    · simp [Env.get, hkv]
  have hloop : missingVarsLoop ((k, "") :: env) = missingVarsLoop env := by
    rw [missingVarsLoop_eq_filter, missingVarsLoop_eq_filter]
    exact List.filter_congr (fun v _ => by rw [hget v])
  have hcheck : check_environment ((k, "") :: env) = check_environment env := by
    rw [check_environment_eq, check_environment_eq, hloop]
  have hmem : k ∈ (check_environment env).2 := by
    rw [check_environment_eq, missingVarsLoop_eq_filter]
    simp only [List.mem_filter]
    exact ⟨hk, by simp [h, pyTruthy]⟩
  exact ⟨hcheck, hmem, by rw [hcheck]; exact hmem⟩

/-! ## Lemmas about the launch and main control flow -/

theorem mainRun_parsed (w : World) (env : Env) (argv : List String)
    (a : Args) (hp : parse_args argv = some a) :
    mainRun w env argv = mainWithArgs w env a := by
  unfold mainRun
  rw [hp]

theorem mainWithArgs_eq_launch (w : World) (env : Env) (a : Args)
    (hgate : a.no_env_check = true ∨ (check_environment env).1 = true) :
    ∃ pre, mainWithArgs w env a = mainLaunch w a pre := by
  by_cases hn : a.no_env_check
  · exact ⟨bannerEvents, by simp [mainWithArgs, hn]⟩
  · rcases hgate with h | h
    · exact absurd h (by simpa using hn)
    · exact ⟨bannerEvents ++ Event.envCheck :: check_environment_events env,
        by simp [mainWithArgs, hn, h]⟩

theorem mainLaunch_parts (w : World) (a : Args) (pre : List Event) :
    (mainLaunch w a pre).1 = pre ++ (mainLaunch w a []).1 ∧
    (mainLaunch w a pre).2 = (mainLaunch w a []).2 := by
  unfold mainLaunch
  rcases h : launch_workflow_devui w a.port with ⟨evs, exc⟩
  rcases exc with _ | e
  · simp
  · cases e <;> simp

theorem mem_body_mainLaunch (w : World) (a : Args) (pre : List Event)
    (e : Event) (h1 : w.serveImportExc = none)
    (h2 : w.workflowImportExc = none) (he : e ∈ launchBody a.port) :
    e ∈ (mainLaunch w a pre).1 := by
  cases h3 : w.serveExc with
  | none => simp [mainLaunch, launch_workflow_devui, h1, h2, h3, he]
  | some ex =>
      cases ex <;>
        simp [mainLaunch, launch_workflow_devui, h1, h2, h3, launchHandle, he]

theorem mem_phases (e : Event) (n : Nat) (t : List Event)
    (he : phaseOf e = some n) (hm : e ∈ t) : n ∈ phases t := by
  simp only [phases, List.mem_filterMap]
  exact ⟨e, hm, he⟩

theorem phases_append (s t : List Event) :
    phases (s ++ t) = phases s ++ phases t := by
  simp [phases, List.filterMap_append]

theorem phases_map_print (f : String → String) (l : List String) :
    phases (l.map (fun v => Event.print (f v))) = [] := by
  rw [phases, List.filterMap_map]
  exact List.filterMap_eq_nil_iff.mpr (fun a _ => rfl)

theorem phases_launchPrints (p : Int) : phases (launchPrints p) = [] := rfl

theorem phases_launchBody (p : Int) : phases (launchBody p) = [1, 2] := by
  rw [launchBody, phases_append, phases_append, phases_launchPrints]
  rfl

theorem phases_launchHandle (evs : List Event) (e : Exc) :
    phases (launchHandle evs e).1 = phases evs := by
  cases e <;> simp [launchHandle, phases_append, phases, phaseOf]

theorem phases_launch (w : World) (p : Int) :
    (phases (launch_workflow_devui w p).1).Sublist [1, 2] := by
  unfold launch_workflow_devui
  cases h1 : w.serveImportExc with
  | some e => exact List.nil_sublist _
  | none =>
    cases h2 : w.workflowImportExc with
    | some e =>
        rw [phases_launchHandle]
        exact List.nil_sublist _
    | none =>
      cases h3 : w.serveExc with
      | some e =>
          rw [phases_launchHandle, phases_launchBody]
      | none =>
          rw [phases_launchBody]

theorem phases_mainLaunch (w : World) (a : Args) (pre : List Event) :
    phases (mainLaunch w a pre).1 =
      phases pre ++ phases (launch_workflow_devui w a.port).1 := by
  unfold mainLaunch
  rcases h : launch_workflow_devui w a.port with ⟨evs, exc⟩
  rcases exc with _ | e
  · simp [phases_append]
  · cases e <;> simp [phases_append, phases, phaseOf]

theorem phases_bannerEvents : phases bannerEvents = [] := by
  simp [bannerEvents, phases, phaseOf]

theorem phases_check_events (env : Env) :
    phases (check_environment_events env) = [] := by
  by_cases h : ((check_environment env).2).isEmpty
  · simp [check_environment_events, h, phases, phaseOf]
  · simp only [check_environment_events, h, if_false, Bool.false_eq_true]
    rw [phases_append, phases_append, phases_map_print]
    rfl

/-- Closed instance of `empty_string_like_unset` at `COSMOS_KEY` over an
environment that sets only `MODEL_DEPLOYMENT_NAME`. -/
theorem empty_string_like_unset_witness :
    check_environment
        (("COSMOS_KEY", "") :: [("MODEL_DEPLOYMENT_NAME", "gpt")]) =
      check_environment [("MODEL_DEPLOYMENT_NAME", "gpt")] ∧
    "COSMOS_KEY" ∈ (check_environment [("MODEL_DEPLOYMENT_NAME", "gpt")]).2 ∧
    "COSMOS_KEY" ∈
      (check_environment
        (("COSMOS_KEY", "") :: [("MODEL_DEPLOYMENT_NAME", "gpt")])).2 :=
  empty_string_like_unset [("MODEL_DEPLOYMENT_NAME", "gpt")] "COSMOS_KEY"
    (by decide) (by decide)

/-- C8: startup is strictly sequential and one-directional — in every run
the phase events (environment check, graph build, serve) occur at most
once each and in that order, so no later failure ever re-enters or
retries an earlier phase; in particular no run re-runs the environment
validation after the graph build starts. -/
theorem startup_sequential (w : World) (env : Env) (argv : List String) :
    (phases (mainRun w env argv).1).Sublist [0, 1, 2] := by
  cases hp : parse_args argv with
  | none =>
      unfold mainRun
      rw [hp]
      exact List.nil_sublist _
  | some a =>
    rw [mainRun_parsed w env argv a hp]
    unfold mainWithArgs
    by_cases hn : a.no_env_check
    · rw [if_pos hn, phases_mainLaunch, phases_bannerEvents, List.nil_append]
      exact List.Sublist.cons 0 (phases_launch w a.port)
    · rw [if_neg hn]
      by_cases hc : (check_environment env).1
      · rw [if_pos hc, phases_mainLaunch, phases_append, phases_append,
          phases_bannerEvents, phases_check_events]
        exact List.Sublist.cons₂ 0 (phases_launch w a.port)
      · rw [if_neg hc]
        simp only [phases_append, phases_bannerEvents, phases_check_events]
        decide

/-- Closed instance of `startup_sequential`: the phase trace of a run
that fails during workflow import is a sublist of the ordered phases. -/
theorem startup_sequential_witness :
    (phases (mainRun ⟨none, some (Exc.otherException "boom"), none⟩
        envAll []).1).Sublist [0, 1, 2] :=
  startup_sequential ⟨none, some (Exc.otherException "boom"), none⟩ envAll []

/-- C4: when `--no-env-check` is parsed, the environment validator never
runs — whatever the environment, even with every required key unset — and
when the imports succeed the launcher still builds the graph and calls
`serve`. -/
theorem no_env_check_skips_validator (w : World) (env : Env)
    (argv : List String) (a : Args) (hp : parse_args argv = some a)
    (hn : a.no_env_check = true) :
    Event.envCheck ∉ (mainRun w env argv).1 ∧
    (w.serveImportExc = none → w.workflowImportExc = none →
      Event.buildGraph ∈ (mainRun w env argv).1 ∧
      Event.serve [challenge2Workflow] a.port true ∈ (mainRun w env argv).1) := by
  rw [mainRun_parsed w env argv a hp]
  have hmain : mainWithArgs w env a = mainLaunch w a bannerEvents := by
    simp [mainWithArgs, hn]
  rw [hmain]
  constructor
  · intro hmem
    have h0 : (0 : Nat) ∈ phases (mainLaunch w a bannerEvents).1 :=
      mem_phases Event.envCheck 0 _ rfl hmem
    rw [phases_mainLaunch, phases_bannerEvents, List.nil_append] at h0
    have h2 : (0 : Nat) ∈ [1, 2] := (phases_launch w a.port).subset h0
    simp at h2
  · intro h1 h2
    exact ⟨mem_body_mainLaunch w a bannerEvents _ h1 h2 (by simp [launchBody]),
      mem_body_mainLaunch w a bannerEvents _ h1 h2 (by simp [launchBody])⟩

/-- Closed instance of `no_env_check_skips_validator`: under
`--no-env-check` with a completely empty environment, the check never
runs and the graph is built and served on the default port. -/
theorem no_env_check_skips_validator_witness :
    Event.envCheck ∉ (mainRun ⟨none, none, none⟩ [] ["--no-env-check"]).1 ∧
    Event.buildGraph ∈ (mainRun ⟨none, none, none⟩ [] ["--no-env-check"]).1 ∧
    Event.serve [challenge2Workflow] 8083 true ∈
      (mainRun ⟨none, none, none⟩ [] ["--no-env-check"]).1 :=
  ⟨(no_env_check_skips_validator ⟨none, none, none⟩ [] ["--no-env-check"]
      ⟨8083, true⟩ rfl rfl).1,
   ((no_env_check_skips_validator ⟨none, none, none⟩ [] ["--no-env-check"]
      ⟨8083, true⟩ rfl rfl).2 rfl rfl).1,
   ((no_env_check_skips_validator ⟨none, none, none⟩ [] ["--no-env-check"]
      ⟨8083, true⟩ rfl rfl).2 rfl rfl).2⟩

/-- C5: with a default invocation (no `--port` flag) the `serve` call is
given port 8083; with `--port N` for an integer literal `N` it is given
port `N`. -/
theorem port_binding :
    (∀ (w : World) (env : Env),
      (check_environment env).1 = true →
      w.serveImportExc = none → w.workflowImportExc = none →
      Event.serve [challenge2Workflow] 8083 true ∈ (mainRun w env []).1) ∧
    (∀ (w : World) (env : Env) (s : String) (n : Int),
      (check_environment env).1 = true →
      w.serveImportExc = none → w.workflowImportExc = none →
      pyInt s = some n →
      Event.serve [challenge2Workflow] n true ∈
        (mainRun w env ["--port", s]).1) := by
  constructor
  · intro w env hc h1 h2
    rw [mainRun_parsed w env [] ⟨8083, false⟩ rfl]
    have hmain : mainWithArgs w env ⟨8083, false⟩ =
        mainLaunch w ⟨8083, false⟩
          (bannerEvents ++ [Event.envCheck] ++ check_environment_events env) := by
      simp [mainWithArgs, hc]
    rw [hmain]
    exact mem_body_mainLaunch w ⟨8083, false⟩ _ _ h1 h2 (by simp [launchBody])
  · intro w env s n hc h1 h2 hs
    have hp : parse_args ["--port", s] = some ⟨n, false⟩ := by
      simp [parse_args, parseArgsLoop, hs]
    rw [mainRun_parsed w env ["--port", s] ⟨n, false⟩ hp]
    have hmain : mainWithArgs w env ⟨n, false⟩ =
        mainLaunch w ⟨n, false⟩
          (bannerEvents ++ [Event.envCheck] ++ check_environment_events env) := by
      simp [mainWithArgs, hc]
    rw [hmain]
    exact mem_body_mainLaunch w ⟨n, false⟩ _ _ h1 h2 (by simp [launchBody])

/-- Closed instance of `port_binding`: default invocation serves on port
8083, and `--port 9000` serves on port 9000. -/
theorem port_binding_witness :
    Event.serve [challenge2Workflow] 8083 true ∈
      (mainRun ⟨none, none, none⟩ envAll []).1 ∧
    Event.serve [challenge2Workflow] 9000 true ∈
      (mainRun ⟨none, none, none⟩ envAll ["--port", "9000"]).1 :=
  ⟨port_binding.1 ⟨none, none, none⟩ envAll (by decide) rfl rfl,
   port_binding.2 ⟨none, none, none⟩ envAll "9000" 9000 (by decide) rfl rfl
     (by decide)⟩

/-- C3: a keyboard interrupt raised while the server is serving yields
process exit code 0 after the stop notice is reported, and an import
failure during workflow construction yields exit code 1 after a
diagnostic naming the failure. -/
theorem interrupt_and_import_exit_codes :
    (∀ (w : World) (env : Env) (argv : List String) (a : Args),
      parse_args argv = some a →
      (a.no_env_check = true ∨ (check_environment env).1 = true) →
      w.serveImportExc = none → w.workflowImportExc = none →
      w.serveExc = some Exc.keyboardInterrupt →
      (mainRun w env argv).2 = 0 ∧
        Event.print "\n👋 DevUI stopped by user" ∈ (mainRun w env argv).1) ∧
    (∀ (w : World) (env : Env) (argv : List String) (a : Args)
        (msg : String),
      parse_args argv = some a →
      (a.no_env_check = true ∨ (check_environment env).1 = true) →
      w.serveImportExc = none →
      w.workflowImportExc = some (Exc.importError msg) →
      (mainRun w env argv).2 = 1 ∧
        Event.print ("❌ Error importing workflow: " ++ msg) ∈
          (mainRun w env argv).1) := by
  constructor
  · intro w env argv a hp hgate h1 h2 h3
    obtain ⟨pre, hpre⟩ := mainWithArgs_eq_launch w env a hgate
    rw [mainRun_parsed w env argv a hp, hpre]
    have hml : mainLaunch w a [] =
        (launchBody a.port ++ [Event.print "\n👋 DevUI stopped by user"], 0) := by
      simp [mainLaunch, launch_workflow_devui, h1, h2, h3, launchHandle]
    refine ⟨?_, ?_⟩
    · rw [(mainLaunch_parts w a pre).2, hml]
    · rw [(mainLaunch_parts w a pre).1, hml]
      simp
  · intro w env argv a msg hp hgate h1 h2
    obtain ⟨pre, hpre⟩ := mainWithArgs_eq_launch w env a hgate
    rw [mainRun_parsed w env argv a hp, hpre]
    have hml : mainLaunch w a [] =
        ([Event.importServe, Event.chdir, Event.importWorkflow,
          Event.print ("❌ Error importing workflow: " ++ msg),
          Event.print "\nMake sure you're in the correct directory and all dependencies are installed."],
         1) := by
      simp [mainLaunch, launch_workflow_devui, h1, h2, launchHandle]
    refine ⟨?_, ?_⟩
    · rw [(mainLaunch_parts w a pre).2, hml]
    · rw [(mainLaunch_parts w a pre).1, hml]
      simp

/-- Closed instance of `interrupt_and_import_exit_codes`: an interrupt
while serving exits 0 with the stop notice, and an import failure exits 1
with the naming diagnostic. -/
theorem interrupt_and_import_exit_codes_witness :
    ((mainRun ⟨none, none, some Exc.keyboardInterrupt⟩ envAll []).2 = 0 ∧
      Event.print "\n👋 DevUI stopped by user" ∈
        (mainRun ⟨none, none, some Exc.keyboardInterrupt⟩ envAll []).1) ∧
    ((mainRun ⟨none, some (Exc.importError "no module named agent_framework"),
        none⟩ envAll []).2 = 1 ∧
      Event.print
          ("❌ Error importing workflow: " ++ "no module named agent_framework") ∈
        (mainRun ⟨none, some (Exc.importError "no module named agent_framework"),
          none⟩ envAll []).1) :=
  ⟨interrupt_and_import_exit_codes.1 ⟨none, none, some Exc.keyboardInterrupt⟩
      envAll [] ⟨8083, false⟩ rfl (Or.inr (by decide)) rfl rfl rfl,
   interrupt_and_import_exit_codes.2
      ⟨none, some (Exc.importError "no module named agent_framework"), none⟩
      envAll [] ⟨8083, false⟩ "no module named agent_framework" rfl
      (Or.inr (by decide)) rfl rfl⟩

/-- C7: a startup exception other than an import failure or a keyboard
interrupt — whether raised during workflow construction or by the server
bind — is reported with a diagnostic carrying its message and makes the
process exit with code 1. -/
theorem other_startup_exception_exit :
    (∀ (w : World) (env : Env) (argv : List String) (a : Args)
        (msg : String),
      parse_args argv = some a →
      (a.no_env_check = true ∨ (check_environment env).1 = true) →
      w.serveImportExc = none →
      w.workflowImportExc = some (Exc.otherException msg) →
      (mainRun w env argv).2 = 1 ∧
        Event.print ("❌ Error launching DevUI: " ++ msg) ∈
          (mainRun w env argv).1) ∧
    (∀ (w : World) (env : Env) (argv : List String) (a : Args)
        (msg : String),
      parse_args argv = some a →
      (a.no_env_check = true ∨ (check_environment env).1 = true) →
      w.serveImportExc = none → w.workflowImportExc = none →
      w.serveExc = some (Exc.otherException msg) →
      (mainRun w env argv).2 = 1 ∧
        Event.print ("❌ Error launching DevUI: " ++ msg) ∈
          (mainRun w env argv).1) := by
  constructor
  · intro w env argv a msg hp hgate h1 h2
    obtain ⟨pre, hpre⟩ := mainWithArgs_eq_launch w env a hgate
    rw [mainRun_parsed w env argv a hp, hpre]
    have hml : mainLaunch w a [] =
        ([Event.importServe, Event.chdir, Event.importWorkflow,
          Event.print ("❌ Error launching DevUI: " ++ msg)], 1) := by
      simp [mainLaunch, launch_workflow_devui, h1, h2, launchHandle]
    refine ⟨?_, ?_⟩
    · rw [(mainLaunch_parts w a pre).2, hml]
    · rw [(mainLaunch_parts w a pre).1, hml]
      simp
  · intro w env argv a msg hp hgate h1 h2 h3
    obtain ⟨pre, hpre⟩ := mainWithArgs_eq_launch w env a hgate
    rw [mainRun_parsed w env argv a hp, hpre]
    have hml : mainLaunch w a [] =
        (launchBody a.port ++ [Event.print ("❌ Error launching DevUI: " ++ msg)],
         1) := by
      simp [mainLaunch, launch_workflow_devui, h1, h2, h3, launchHandle]
    refine ⟨?_, ?_⟩
    · rw [(mainLaunch_parts w a pre).2, hml]
    · rw [(mainLaunch_parts w a pre).1, hml]
      simp

/-- Closed instance of `other_startup_exception_exit`: a generic runtime
error during workflow construction and one raised by the serve call both
exit 1 with the launch diagnostic. -/
theorem other_startup_exception_exit_witness :
    ((mainRun ⟨none, some (Exc.otherException "cosmos unreachable"), none⟩
        envAll []).2 = 1 ∧
      Event.print ("❌ Error launching DevUI: " ++ "cosmos unreachable") ∈
        (mainRun ⟨none, some (Exc.otherException "cosmos unreachable"), none⟩
          envAll []).1) ∧
    ((mainRun ⟨none, none, some (Exc.otherException "port in use")⟩
        envAll []).2 = 1 ∧
      Event.print ("❌ Error launching DevUI: " ++ "port in use") ∈
        (mainRun ⟨none, none, some (Exc.otherException "port in use")⟩
          envAll []).1) :=
  ⟨other_startup_exception_exit.1
      ⟨none, some (Exc.otherException "cosmos unreachable"), none⟩ envAll []
      ⟨8083, false⟩ "cosmos unreachable" rfl (Or.inr (by decide)) rfl rfl,
   other_startup_exception_exit.2
      ⟨none, none, some (Exc.otherException "port in use")⟩ envAll []
      ⟨8083, false⟩ "port in use" rfl (Or.inr (by decide)) rfl rfl rfl⟩

/-- C10: a keyboard interrupt raised at any point inside
`launch_workflow_devui` — during the serve import, during the workflow
imports, or during serving — bypasses both `except Exception` handlers,
is caught in `main`, and yields exit code 0 with the stop notice. -/
theorem keyboard_interrupt_bypass :
    (∀ (w : World) (env : Env) (argv : List String) (a : Args),
      parse_args argv = some a →
      (a.no_env_check = true ∨ (check_environment env).1 = true) →
      w.serveImportExc = some Exc.keyboardInterrupt →
      (mainRun w env argv).2 = 0 ∧
        Event.print "\n👋 DevUI stopped by user" ∈ (mainRun w env argv).1) ∧
    (∀ (w : World) (env : Env) (argv : List String) (a : Args),
      parse_args argv = some a →
      (a.no_env_check = true ∨ (check_environment env).1 = true) →
      w.serveImportExc = none →
      w.workflowImportExc = some Exc.keyboardInterrupt →
      (mainRun w env argv).2 = 0 ∧
        Event.print "\n👋 DevUI stopped by user" ∈ (mainRun w env argv).1) ∧
    (∀ (w : World) (env : Env) (argv : List String) (a : Args),
      parse_args argv = some a →
      (a.no_env_check = true ∨ (check_environment env).1 = true) →
      w.serveImportExc = none → w.workflowImportExc = none →
      w.serveExc = some Exc.keyboardInterrupt →
      (mainRun w env argv).2 = 0 ∧
        Event.print "\n👋 DevUI stopped by user" ∈ (mainRun w env argv).1) := by
  refine ⟨?_, ?_, ?_⟩
  · intro w env argv a hp hgate h1
    obtain ⟨pre, hpre⟩ := mainWithArgs_eq_launch w env a hgate
    rw [mainRun_parsed w env argv a hp, hpre]
    have hml : mainLaunch w a [] =
        ([Event.importServe, Event.print "\n👋 DevUI stopped by user"], 0) := by
      simp [mainLaunch, launch_workflow_devui, h1]
    refine ⟨?_, ?_⟩
    · rw [(mainLaunch_parts w a pre).2, hml]
    · rw [(mainLaunch_parts w a pre).1, hml]
      simp
  · intro w env argv a hp hgate h1 h2
    obtain ⟨pre, hpre⟩ := mainWithArgs_eq_launch w env a hgate
    rw [mainRun_parsed w env argv a hp, hpre]
    have hml : mainLaunch w a [] =
        ([Event.importServe, Event.chdir, Event.importWorkflow,
          Event.print "\n👋 DevUI stopped by user"], 0) := by
      simp [mainLaunch, launch_workflow_devui, h1, h2, launchHandle]
    refine ⟨?_, ?_⟩
    · rw [(mainLaunch_parts w a pre).2, hml]
    · rw [(mainLaunch_parts w a pre).1, hml]
      simp
  · intro w env argv a hp hgate h1 h2 h3
    obtain ⟨pre, hpre⟩ := mainWithArgs_eq_launch w env a hgate
    rw [mainRun_parsed w env argv a hp, hpre]
    have hml : mainLaunch w a [] =
        (launchBody a.port ++ [Event.print "\n👋 DevUI stopped by user"], 0) := by
      simp [mainLaunch, launch_workflow_devui, h1, h2, h3, launchHandle]
    refine ⟨?_, ?_⟩
    · rw [(mainLaunch_parts w a pre).2, hml]
    · rw [(mainLaunch_parts w a pre).1, hml]
      simp

/-- Closed instance of `keyboard_interrupt_bypass` at all three
interruption points, each exiting 0 with the stop notice. -/
theorem keyboard_interrupt_bypass_witness :
    ((mainRun ⟨some Exc.keyboardInterrupt, none, none⟩ envAll []).2 = 0 ∧
      Event.print "\n👋 DevUI stopped by user" ∈
        (mainRun ⟨some Exc.keyboardInterrupt, none, none⟩ envAll []).1) ∧
    ((mainRun ⟨none, some Exc.keyboardInterrupt, none⟩ envAll []).2 = 0 ∧
      Event.print "\n👋 DevUI stopped by user" ∈
        (mainRun ⟨none, some Exc.keyboardInterrupt, none⟩ envAll []).1) ∧
    ((mainRun ⟨none, none, some Exc.keyboardInterrupt⟩ envAll
        ["--no-env-check"]).2 = 0 ∧
      Event.print "\n👋 DevUI stopped by user" ∈
        (mainRun ⟨none, none, some Exc.keyboardInterrupt⟩ envAll
          ["--no-env-check"]).1) :=
  ⟨keyboard_interrupt_bypass.1 ⟨some Exc.keyboardInterrupt, none, none⟩
      envAll [] ⟨8083, false⟩ rfl (Or.inr (by decide)) rfl,
   keyboard_interrupt_bypass.2.1 ⟨none, some Exc.keyboardInterrupt, none⟩
      envAll [] ⟨8083, false⟩ rfl (Or.inr (by decide)) rfl rfl,
   keyboard_interrupt_bypass.2.2 ⟨none, none, some Exc.keyboardInterrupt⟩
      envAll ["--no-env-check"] ⟨8083, true⟩ rfl (Or.inl rfl) rfl rfl rfl⟩

theorem env_get_append_some (file proc : Env) (k v : String)
    (h : file.get k = some v) : Env.get (file ++ proc) k = some v := by
  induction file with
  | nil => simp [Env.get] at h
  | cons kv rest ih =>
      rcases kv with ⟨k0, v0⟩
      by_cases hk : k0 = k
      · rw [Env.get] at h
        rw [List.cons_append, Env.get]
        simp only [hk, if_true] at h ⊢
        exact h
      · rw [Env.get] at h
        rw [List.cons_append, Env.get]
        simp only [hk, if_false] at h ⊢
        exact ih h

theorem check_environment_ext (e1 e2 : Env)
    (h : ∀ k, e1.get k = e2.get k) :
    check_environment e1 = check_environment e2 := by
  have hloop : missingVarsLoop e1 = missingVarsLoop e2 := by
    rw [missingVarsLoop_eq_filter, missingVarsLoop_eq_filter]
    exact List.filter_congr (fun x _ => by rw [h x])
  rw [check_environment_eq, check_environment_eq, hloop]

theorem mainRun_ext (w : World) (e1 e2 : Env) (argv : List String)
    (h : ∀ k, e1.get k = e2.get k) :
    mainRun w e1 argv = mainRun w e2 argv := by
  have hc := check_environment_ext e1 e2 h
  unfold mainRun
  cases parse_args argv with
  | none => rfl
  | some a =>
      unfold mainWithArgs check_environment_events
      rw [hc]

/-- C9: the `.env` file is loaded with `override=True` before any
validation runs — every variable present in the file replaces any value
the process environment already had — and the whole script, the
environment validator included, judges only the overridden environment:
two runs whose overridden environments agree behave identically, whatever
the process environments were. -/
theorem dotenv_override_judged (file proc proc2 : Env) (k v : String)
    (w : World) (argv : List String) :
    (file.get k = some v → (load_dotenv_override file proc).get k = some v) ∧
    ((∀ x, (load_dotenv_override file proc).get x =
        (load_dotenv_override file proc2).get x) →
      run_script w file proc argv = run_script w file proc2 argv) := by
  constructor
  · intro h
    exact env_get_append_some file proc k v h
  · intro h
    unfold run_script
    exact mainRun_ext w _ _ argv h

/-- Closed instance of `dotenv_override_judged`: a `.env` value for
`COSMOS_KEY` shadows the stale value in the process environment, and the
script's behaviour is determined by the overridden environment. -/
theorem dotenv_override_judged_witness :
    (load_dotenv_override [("COSMOS_KEY", "fresh")]
        [("COSMOS_KEY", "stale")]).get "COSMOS_KEY" = some "fresh" ∧
    run_script ⟨none, none, none⟩ [("COSMOS_KEY", "fresh")]
        [("COSMOS_KEY", "stale")] [] =
      run_script ⟨none, none, none⟩ [("COSMOS_KEY", "fresh")]
        [("COSMOS_KEY", "stale")] [] :=
  ⟨(dotenv_override_judged [("COSMOS_KEY", "fresh")] [("COSMOS_KEY", "stale")]
      [("COSMOS_KEY", "stale")] "COSMOS_KEY" "fresh" ⟨none, none, none⟩ []).1
      (by decide),
   (dotenv_override_judged [("COSMOS_KEY", "fresh")] [("COSMOS_KEY", "stale")]
      [("COSMOS_KEY", "stale")] "COSMOS_KEY" "fresh" ⟨none, none, none⟩ []).2
      (fun x => rfl)⟩

end DevUI
